import Mathlib

/-!
Verification development for the ShashwathaPoojaApp calendar-date resolution
engine (src/app.py, src/calculations.py).

The Python code is shallowly embedded:
* The skyfield ephemeris backend (an external black-box numerical service) is
  modelled as an oracle `Ephemeris` giving the Sun's and Moon's apparent
  tropical ecliptic longitude (as an exact rational) at a civil day sampled at
  a given UTC hour/minute, matching `get_astronomy_at`.
* Python floats are idealised as rationals; every `int(x)` in the source is
  applied to a non-negative quantity, where truncation equals the floor.
* Civil dates are represented by their day number relative to 1970-01-01
  (proleptic Gregorian), with `civilFromDays`/`daysFromCivil` converting to
  and from (year, month, day) triples; `datetime.date` arithmetic and
  `.year` access are modelled through these.
* Python functions that return `None` or a string are modelled as
  `Option String`; the sentinel strings "Not Found", "Check Manual", "Error"
  are kept as actual strings, and the dispatcher's substring tests
  (`"Not Found" not in res`) are modelled by an executable substring check.
* The vocabularies imported from `mappings.py` (a file of the repository not
  available here) are parameters (`Vocab`); the `KANNADA_MONTHS` table, which
  is defined in src/calculations.py itself, is embedded concretely.
* The global `PLANETS` (None when ephemeris initialisation failed) is the
  boolean parameter `planetsOk`.
-/

namespace PoojaSpec

/-! ## Python string primitives -/

/-- Whitespace characters recognised by Python `str.strip`/`str.split` (the
ASCII subset, which covers the inputs of interest). -/
def isPySpace (c : Char) : Bool :=
  c = ' ' || c = '\t' || c = '\n' || c = '\r'

/-- Drop leading whitespace. -/
def dropWs : List Char → List Char
  | [] => []
  | c :: r => if isPySpace c then dropWs r else c :: r

/-- Python `str.strip()` on a character list: remove leading and trailing
whitespace. -/
def listStrip (l : List Char) : List Char :=
  (dropWs (dropWs l).reverse).reverse

/-- Python `s.strip()`. -/
def pyStrip (s : String) : String :=
  String.mk (listStrip s.toList)

/-- Python `s.replace(a, b)` for single-character `a`, `b` (the only uses in
the source are `replace("-", " ")` and `replace(".", " ")`). -/
def replCh (a b : Char) (l : List Char) : List Char :=
  l.map (fun c => if c = a then b else c)

/-- Python `s.split()` (split on whitespace runs, no empty parts). -/
def splitWsAux : List Char → List Char → List (List Char)
  | [], acc => if acc.isEmpty then [] else [acc.reverse]
  | c :: r, acc =>
    if isPySpace c then
      (if acc.isEmpty then splitWsAux r [] else acc.reverse :: splitWsAux r [])
    else splitWsAux r (c :: acc)

/-- Python `s.split()` on a character list. -/
def splitWs (l : List Char) : List (List Char) :=
  splitWsAux l []

/-- Python `s.split(sep)` for a single-character separator, keeping empty
parts. -/
def splitOnCh (sep : Char) : List Char → List (List Char)
  | [] => [[]]
  | c :: r =>
    if c = sep then [] :: splitOnCh sep r
    else
      match splitOnCh sep r with
      | [] => [[c]]
      | h :: t => (c :: h) :: t

/-- Does `n` occur as a contiguous run at the head of `h`? -/
def hasPreChars : List Char → List Char → Bool
  | [], _ => true
  | _ :: _, [] => false
  | a :: n, b :: h => a = b && hasPreChars n h

/-- Does `n` occur as a contiguous run anywhere in `h`?  Models Python's
substring test `n in h`. -/
def hasRunChars (n : List Char) : List Char → Bool
  | [] => n.isEmpty
  | c :: h => hasPreChars n (c :: h) || hasRunChars n h

/-- Python `needle in hay` on strings. -/
def pyIn (needle hay : String) : Bool :=
  hasRunChars needle.toList hay.toList

/-- Python `s.isdigit()` (restricted to ASCII digits, which covers the
inputs of interest): nonempty and all digits. -/
def pyIsdigit (s : String) : Bool :=
  !s.toList.isEmpty && s.toList.all Char.isDigit

/-- Leading digit run of a character list. -/
def takeDigits : List Char → List Char
  | [] => []
  | c :: r => if c.isDigit then c :: takeDigits r else []

/-- Numeric value of a digit-character list. -/
def digitsToNat (l : List Char) : Nat :=
  l.foldl (fun a c => a * 10 + (c.toNat - 48)) 0

/-- First maximal digit run of a character list, as a number: models
`re.search(r'\d+', s)` / `re.findall(r'\d+', s)[0]` followed by `int`. -/
def firstNum : List Char → Option Nat
  | [] => none
  | c :: r => if c.isDigit then some (digitsToNat (c :: takeDigits r)) else firstNum r

/-- Decimal digit character. -/
def digitCh (d : Nat) : Char :=
  Char.ofNat (48 + d % 10)

/-- Decimal digits of a natural number, most significant first (first
argument is fuel, called with `n` itself). -/
def natDigitsAux : Nat → Nat → List Char
  | 0, n => [digitCh (n % 10)]
  | f + 1, n => if n < 10 then [digitCh n] else natDigitsAux f (n / 10) ++ [digitCh (n % 10)]

/-- Decimal digits of a natural number. -/
def natDigits (n : Nat) : List Char :=
  natDigitsAux n n

/-- Zero-padded decimal rendering to a minimum width, for `strftime`
fields (`%d`/`%m` pad to 2, `%Y` pads to 4). -/
def padNum (width : Nat) (n : Int) : List Char :=
  let ds := natDigits n.toNat
  List.replicate (width - ds.length) '0' ++ ds

/-- Python truthiness of an optional int (`None` and `0` are falsy). -/
def pyTruthyInt : Option Int → Bool
  | none => false
  | some v => !(v = 0)

/-- Python truthiness of an optional string (`None` and `""` are falsy). -/
def pyTruthyStr : Option String → Bool
  | none => false
  | some s => !(s = "")

/-- First-match association-list lookup with integer values: models both
`k in D` and `D[k]` for the vocabulary dicts (iteration in insertion
order). -/
def lookupInt (l : List (String × Int)) (k : String) : Option Int :=
  (l.find? (fun kv => kv.1 == k)).map (fun kv => kv.2)

/-- First-match association-list lookup with string values (the `PAKSHA`
dict maps names to "Shukla"/"Krishna"). -/
def lookupStr (l : List (String × String)) (k : String) : Option String :=
  (l.find? (fun kv => kv.1 == k)).map (fun kv => kv.2)

/-! ## Civil-calendar arithmetic

`datetime.date` is proleptic Gregorian.  A date is represented by its day
number `z` with `z = 0` at 1970-01-01; `daysFromCivil`/`civilFromDays` are
the standard (Howard Hinnant) conversions, written with Lean's `Int`
division (for a positive divisor `/` and `%` on `Int` are floor division
and floored remainder, matching Python `//` and `%`). -/

/-- Gregorian leap-year test. -/
def isLeap (y : Int) : Bool :=
  y % 4 = 0 && (y % 100 ≠ 0 || y % 400 = 0)

/-- Number of days in a civil month. -/
def daysInMonth (y m : Int) : Int :=
  if m = 2 then (if isLeap y then 29 else 28)
  else if m = 4 || m = 6 || m = 9 || m = 11 then 30
  else if 1 ≤ m ∧ m ≤ 12 then 31
  else 0

/-- `datetime.date(y, m, d)` succeeds exactly on these arguments
(`MINYEAR = 1`, `MAXYEAR = 9999`). -/
def dateValid (y m d : Int) : Bool :=
  1 ≤ y && y ≤ 9999 && 1 ≤ m && m ≤ 12 && 1 ≤ d && d ≤ daysInMonth y m

/-- Day number of a civil date, 0 at 1970-01-01. -/
def daysFromCivil (y m d : Int) : Int :=
  let y1 := if m ≤ 2 then y - 1 else y
  let era := y1 / 400
  let yoe := y1 - era * 400
  let mp := if m > 2 then m - 3 else m + 9
  let doy := (153 * mp + 2) / 5 + d - 1
  let doe := yoe * 365 + yoe / 4 - yoe / 100 + doy
  era * 146097 + doe - 719468

/-- Civil date (year, month, day) of a day number. -/
def civilFromDays (z0 : Int) : Int × Int × Int :=
  let z := z0 + 719468
  let era := z / 146097
  let doe := z - era * 146097
  let yoe := (doe - doe / 1460 + doe / 36524 - doe / 146096) / 365
  let y := yoe + era * 400
  let doy := doe - (365 * yoe + yoe / 4 - yoe / 100)
  let mp := (5 * doy + 2) / 153
  let d := doy - (153 * mp + 2) / 5 + 1
  let m := if mp < 10 then mp + 3 else mp - 9
  (if m ≤ 2 then y + 1 else y, m, d)

/-- `date.year` of a day number: models the `check_date.year != year`
guards. -/
def yearOfOrd (z : Int) : Int :=
  (civilFromDays z).1

/-- `date.weekday()` (Monday = 0).  Day 0 (1970-01-01) was a Thursday. -/
def pyWeekday (z : Int) : Int :=
  (z + 3) % 7

/-- `date.strftime("%d-%m-%Y")`. -/
def strf (z : Int) : String :=
  let c := civilFromDays z
  String.mk (padNum 2 c.2.2 ++ ['-'] ++ padNum 2 c.2.1 ++ ['-'] ++ padNum 4 c.1)

/-! ## Exact fractions

Python floats are idealised as exact fractions.  The kernel cannot evaluate
Mathlib's `ℚ` operations (they are `@[irreducible]`), so the embedding uses
a tiny proof-carrying fraction type `Frac` offering exactly the operations
the source needs — subtraction, floored division by a positive constant,
and `% 360` — each bridged to `ℚ` by a lemma about `Frac.toRat`. -/

/-- An exact fraction with positive denominator. -/
structure Frac where
  num : Int
  den : Int
  dpos : 0 < den

/-- Embed an integer. -/
def Frac.ofInt (k : Int) : Frac :=
  ⟨k, 1, Int.zero_lt_one⟩

/-- Exact subtraction. -/
def Frac.sub (a b : Frac) : Frac :=
  ⟨a.num * b.den - b.num * a.den, a.den * b.den, mul_pos a.dpos b.dpos⟩

/-- `⌊x / k⌋` for a positive integer constant `k`: models Python `int(x / k)`
(all such quotients in the source are non-negative, where `int` truncation
equals the floor) and the day count of `timedelta(days=x/k)`. -/
def Frac.floorDiv (x : Frac) (k : Nat) : Int :=
  x.num / (x.den * k)

/-- `⌊x / (p / q)⌋` for positive integer constants `p`, `q`: models Python
`int(x / (360 / 27))`. -/
def Frac.floorDivQ (x : Frac) (p q : Nat) : Int :=
  (x.num * q) / (x.den * p)

/-- The value of a fraction as a rational. -/
def Frac.toRat (x : Frac) : ℚ :=
  (x.num : ℚ) / (x.den : ℚ)

/-- Python `x % 360.0` (floored remainder): `x - 360 * ⌊x / 360⌋`, exact. -/
def fmod360 (x : Frac) : Frac :=
  ⟨x.num - 360 * x.floorDiv 360 * x.den, x.den, x.dpos⟩

/-- The mathematical `x mod 360` on rationals, used to state the claims. -/
def qmodRat (x : ℚ) : ℚ :=
  x - 360 * (⌊x / 360⌋ : ℚ)

/-! ## Astronomy layer -/

/-- The ephemeris backend (skyfield + de421 + the fixed Udupi observer),
treated as a black box: apparent tropical ecliptic longitudes of Sun and
Moon at civil day `z` sampled at a UTC hour/minute, as exact fractions. -/
structure Ephemeris where
  sunLon : Int → Nat → Nat → Frac
  moonLon : Int → Nat → Nat → Frac

/-- `AYANAMSA = 24.1` (src/calculations.py, module constant). -/
def AYANAMSA : Frac :=
  ⟨241, 10, by norm_num⟩

/-- `get_sidereal_sun_longitude`: correct a tropical longitude to sidereal,
`(s_lon - AYANAMSA) % 360`. -/
def get_sidereal_sun_longitude (slon : Frac) : Frac :=
  fmod360 (slon.sub AYANAMSA)

/-- The tithi computed from Moon/Sun longitudes:
`int(((m_lon - s_lon) % 360) / 12) + 1` (inlined at every use site of the
source). -/
def tithiOf (mlon slon : Frac) : Int :=
  (fmod360 (mlon.sub slon)).floorDiv 12 + 1

/-- Tithi on day `z` sampled at `h:m` UTC. -/
def tithiAt (E : Ephemeris) (h m : Nat) (z : Int) : Int :=
  tithiOf (E.moonLon z h m) (E.sunLon z h m)

/-- Sidereal solar zodiac index on day `z`:
`int(get_sidereal_sun_longitude(e) / 30) + 1`. -/
def sIdxAt (E : Ephemeris) (h m : Nat) (z : Int) : Int :=
  (get_sidereal_sun_longitude (E.sunLon z h m)).floorDiv 30 + 1

/-- Sidereal nakshatra (star) index of the Moon on day `z`:
`int(((m_lon - AYANAMSA) % 360) / (360 / 27)) + 1`. -/
def starAt (E : Ephemeris) (h m : Nat) (z : Int) : Int :=
  (fmod360 ((E.moonLon z h m).sub AYANAMSA)).floorDivQ 360 27 + 1

/-- Target tithi index 1–30 from (paksha, waxing tithi):
`target = tithi; if paksha == "Krishna": target += 15` (inlined both in
`calculate_accurate_lunar_date` and `get_solar_month_tithi_date`). -/
def targetTithi (paksha : String) (tithi : Int) : Int :=
  if paksha = "Krishna" then tithi + 15 else tithi

/-- The estimated new-moon day inside `get_lunar_month_from_new_moon`:
`phase_angle = (m_lon - s_lon) % 360; days_since_nm = phase_angle / 12.0;
nm_date = date_obj - datetime.timedelta(days=days_since_nm)`.  Subtracting
a `timedelta` from a `date` uses only the timedelta's (floored) day
count. -/
def newMoonEstimate (E : Ephemeris) (z : Int) : Int :=
  z - (fmod360 ((E.moonLon z 6 0).sub (E.sunLon z 6 0))).floorDiv 12

/-- `get_lunar_month_from_new_moon` (src/calculations.py:110-138): sample
at 6:00 UTC, backtrack to the estimated new moon, read the Sun's sidereal
zodiac sign there, and map `(zodiac_index + 2) % 12` with `0 → 12`. -/
def get_lunar_month_from_new_moon (E : Ephemeris) (z : Int) : Int :=
  let nm := newMoonEstimate E z
  let sidereal := get_sidereal_sun_longitude (E.sunLon nm 6 0)
  let zodiacIndex := sidereal.floorDiv 30
  let lunarMonth := (zodiacIndex + 2) % 12
  if lunarMonth = 0 then 12 else lunarMonth

/-! ## Bounded day-stepping searches (src/calculations.py) -/

/-- The `greg_map` dictionary lookup with default 3:
`{1:3, …, 10:12, 11:1, 12:2}.get(idx, 3)`. -/
def gregMapGet (m : Int) : Int :=
  if m = 11 then 1 else if m = 12 then 2 else if 1 ≤ m ∧ m ≤ 10 then m + 2 else 3

/-- The loop of `calculate_accurate_lunar_date` (src/calculations.py:157-171):
`for i in range(80)` over days from `z`, mirroring the source's branch
structure — skip days of a different civil year, test the tithi, and on a
tithi match additionally verify the lunar month before returning.  The
first argument of the recursion is the remaining iteration count. -/
def lunarScanAux (E : Ephemeris) (tmi tt y : Int) (h m : Nat) : Nat → Int → Option Int
  | 0, _ => none
  | fuel + 1, z =>
    if yearOfOrd z ≠ y then lunarScanAux E tmi tt y h m fuel (z + 1)
    else if tithiAt E h m z = tt then
      if get_lunar_month_from_new_moon E z = tmi then some z
      else lunarScanAux E tmi tt y h m fuel (z + 1)
    else lunarScanAux E tmi tt y h m fuel (z + 1)

/-- The anchor of the lunar search window:
`start_date = date(year, greg_map.get(idx, 3), 1) - timedelta(days=15)`. -/
def lunarStart (year targetMonthIdx : Int) : Int :=
  daysFromCivil year (gregMapGet targetMonthIdx) 1 - 15

/-- The sampling instant of `calculate_accurate_lunar_date`:
`(18, 30) if check_time == "midnight" else (1, 0)`. -/
def lunarInstant (checkTime : String) : Nat × Nat :=
  if checkTime = "midnight" then (18, 30) else (1, 0)

/-- `calculate_accurate_lunar_date` (src/calculations.py:141-172).  Returns
the formatted first matching day or the sentinel `"Not Found"`.  The
source also computes an unused local `y_adj`, omitted here. -/
def calculate_accurate_lunar_date (E : Ephemeris) (targetMonthIdx : Int)
    (pakshaStr : String) (tithiVal year : Int) (checkTime : String) : String :=
  let targetT := targetTithi pakshaStr tithiVal
  let hm := lunarInstant checkTime
  match lunarScanAux E targetMonthIdx targetT year hm.1 hm.2 80 (lunarStart year targetMonthIdx) with
  | some z => strf z
  | none => "Not Found"

/-- The loop of `calculate_solar_span_event` (src/calculations.py:292-319):
`for _ in range(50)`, stepping one day per iteration (days of a different
civil year also consume an iteration), testing the sidereal solar month
and then the star or tithi condition according to `event_type`. -/
def solarSpanScan (E : Ephemeris) (y sm : Int) (et : String) (tv : Int) :
    Nat → Int → Option Int
  | 0, _ => none
  | fuel + 1, z =>
    if yearOfOrd z ≠ y then solarSpanScan E y sm et tv fuel (z + 1)
    else if sIdxAt E 1 0 z = sm then
      if et = "star" then
        if starAt E 1 0 z = tv then some z else solarSpanScan E y sm et tv fuel (z + 1)
      else if et = "tithi" then
        if tithiAt E 1 0 z = tv then some z else solarSpanScan E y sm et tv fuel (z + 1)
      else solarSpanScan E y sm et tv fuel (z + 1)
    else solarSpanScan E y sm et tv fuel (z + 1)

/-- The anchor of the solar span window:
`start_greg = idx + 3` (wrapped past 12), then
`date(year, start_greg, 1) - timedelta(days=20)`. -/
def solarStart (year solarMonthIdx : Int) : Int :=
  let startGreg := if solarMonthIdx + 3 > 12 then solarMonthIdx + 3 - 12 else solarMonthIdx + 3
  daysFromCivil year startGreg 1 - 20

/-- `calculate_solar_span_event` (src/calculations.py:287-320).  Returns the
formatted first matching day or the sentinel `"Check Manual"`. -/
def calculate_solar_span_event (E : Ephemeris) (year solarMonthIdx : Int)
    (eventType : String) (targetVal : Int) : String :=
  match solarSpanScan E year solarMonthIdx eventType targetVal 50 (solarStart year solarMonthIdx) with
  | some z => strf z
  | none => "Check Manual"

/-- The loop of `get_lunar_month_star_date` (src/calculations.py:233-249):
`for i in range(60)`, skipping days of a different civil year, requiring
the lunar month first and then the Moon's sidereal star (sampled at the
default instant 0:30 UTC of `get_astronomy_at`). -/
def lunarStarScan (E : Ephemeris) (y lm st : Int) : Nat → Int → Option Int
  | 0, _ => none
  | fuel + 1, z =>
    if yearOfOrd z ≠ y then lunarStarScan E y lm st fuel (z + 1)
    else if get_lunar_month_from_new_moon E z ≠ lm then lunarStarScan E y lm st fuel (z + 1)
    else if starAt E 0 30 z = st then some z
    else lunarStarScan E y lm st fuel (z + 1)

/-- The loop of `get_solar_day_date` (src/calculations.py:271-283):
`for _ in range(45)` looking for the transition day of the solar month (no
civil-year filter); on success the returned day is
`transition + (day_num - 1)`. -/
def solarDayScan (E : Ephemeris) (fm dayNum : Int) : Nat → Int → Option Int
  | 0, _ => none
  | fuel + 1, z =>
    if sIdxAt E 0 30 z = fm then some (z + (dayNum - 1))
    else solarDayScan E fm dayNum fuel (z + 1)

/-- The upward loop of `calculate_nth_weekday` (src/calculations.py:91-100):
days 1..31 of the month, an invalid date breaks the loop, counting
occurrences of the target weekday. -/
def nthWeekdayUp (y mo wd n : Int) : Nat → Int → Int → Option String
  | 0, _, _ => none
  | fuel + 1, day, count =>
    if ¬ (dateValid y mo day = true) then none
    else
      let z := daysFromCivil y mo day
      if pyWeekday z = wd then
        if count + 1 = n then some (strf z)
        else nthWeekdayUp y mo wd n fuel (day + 1) (count + 1)
      else nthWeekdayUp y mo wd n fuel (day + 1) count

/-- The downward loop of `calculate_nth_weekday` (src/calculations.py:102-105):
from the last day of the month down to 1, returning the first day with the
target weekday. -/
def nthWeekdayDown (y mo wd : Int) : Nat → Int → Option String
  | 0, _ => none
  | fuel + 1, day =>
    if day ≤ 0 then none
    else
      let z := daysFromCivil y mo day
      if pyWeekday z = wd then some (strf z)
      else nthWeekdayDown y mo wd fuel (day - 1)

/-- `calculate_nth_weekday` (src/calculations.py:90-106).  For `n > 0` the
`n`-th occurrence counting forward; otherwise ("last") the first occurrence
scanning backward from the last day of the month
(`(date(y, m+1, 1) - 1 day).day` for `m < 12`, else `31`). -/
def calculate_nth_weekday (year month targetWeekdayIdx n : Int) : Option String :=
  if n > 0 then nthWeekdayUp year month targetWeekdayIdx n 31 1 0
  else
    let lastDay := if month < 12 then daysInMonth year month else 31
    nthWeekdayDown year month targetWeekdayIdx 31 lastDay

/-- The loop of `get_gregorian_month_star_date` (src/calculations.py:394-409):
days 1..31 of the given civil month, an invalid date breaks, testing the
Moon's sidereal star at the default instant 0:30 UTC. -/
def gregMonthStarScan (E : Ephemeris) (y gm st : Int) : Nat → Int → Option String
  | 0, _ => none
  | fuel + 1, day =>
    if ¬ (dateValid y gm day = true) then none
    else
      let z := daysFromCivil y gm day
      if starAt E 0 30 z = st then some (strf z)
      else gregMonthStarScan E y gm st fuel (day + 1)

/-- The loop of `get_gregorian_month_tithi_date` (src/calculations.py:438-454):
days 1..31 of the given civil month, testing the tithi at the default
instant 0:30 UTC. -/
def gregMonthTithiScan (E : Ephemeris) (y gm tt : Int) : Nat → Int → Option String
  | 0, _ => none
  | fuel + 1, day =>
    if ¬ (dateValid y gm day = true) then none
    else
      let z := daysFromCivil y gm day
      if tithiAt E 0 30 z = tt then some (strf z)
      else gregMonthTithiScan E y gm tt fuel (day + 1)

/-! ## Vocabularies and parsing

The dictionaries imported from `mappings.py` (a repository file not
available under src/) are parameters, bundled in `Vocab`; dict iteration is
in insertion order, so they are association lists.  `KANNADA_MONTHS` is
defined in src/calculations.py itself and is embedded concretely (the
source dict literal repeats the key "ಜುಲೈ" with the same value; a Python
dict literal keeps one entry for it). -/

/-- The vocabulary dictionaries imported from `mappings.py`. -/
structure Vocab where
  LUNAR_MONTHS : List (String × Int)
  PAKSHA : List (String × String)
  TITHIS : List (String × Int)
  NAKSHATRAS : List (String × Int)
  SOLAR_MONTHS : List (String × Int)
  WEEKDAYS : List (String × Int)
  ORDINALS : List (String × Int)

/-- `KANNADA_MONTHS` (src/calculations.py:30-34), in insertion order. -/
def KANNADA_MONTHS : List (String × Int) :=
  [("ಜನವರಿ", 1), ("ಫೆಬ್ರವರಿ", 2), ("ಮಾರ್ಚ್", 3), ("ಏಪ್ರಿಲ್", 4), ("ಮೇ", 5), ("ಜೂನ್", 6),
   ("ಜುಲೈ", 7), ("ಆಗಸ್ಟ್", 8), ("ಸೆಪ್ಟೆಂಬರ್", 9), ("ಅಕ್ಟೋಬರ್", 10), ("ನವೆಂಬರ್", 11),
   ("ಡಿಸೆಂಬರ್", 12), ("ಮಾರ್ಚ", 3), ("ಎಪ್ರಿಲ್", 4), ("ಅಗೋಸ್ತು", 8), ("ಒಕ್ಟೋಬರ್", 10),
   ("ಸೆಪ್ಟಂಬರ್", 9)]

/-- First key/value of a vocabulary whose key occurs as a substring of the
text: models `for k, v in D.items(): if k in s: … break`. -/
def findSub (l : List (String × Int)) (s : String) : Option (String × Int) :=
  l.find? (fun kv => pyIn kv.1 s)

/-- The `"-"` branch of `get_english_date` (src/calculations.py:57-68):
split on `"-"`, exactly two parts, strip both, look the month part up in
`KANNADA_MONTHS`, read the first digit run of the day part, and build the
date; any failure (including an invalid civil date) falls through. -/
def engDashResult (year : Int) (cl : List Char) : Option String :=
  match splitOnCh '-' cl with
  | [m0, d0] =>
    let m := String.mk (listStrip m0)
    let d := listStrip d0
    match lookupInt KANNADA_MONTHS m with
    | some mv =>
      match firstNum d with
      | some dn =>
        if dateValid year mv (dn : Int) then some (strf (daysFromCivil year mv (dn : Int)))
        else none
      | none => none
    | none => none
  | _ => none

/-- `get_english_date` (src/calculations.py:52-87): strip, try the
month-day branch when the text contains `"-"`, otherwise the weekday
pattern logic — first `WEEKDAYS` key occurring as a substring, then first
`KANNADA_MONTHS` key, then first `ORDINALS` key (default 1). -/
def get_english_date (V : Vocab) (dateStr : String) (year : Int) : Option String :=
  let s := pyStrip dateStr
  let cl := s.toList
  let dashRes := if pyIn "-" s then engDashResult year cl else none
  match dashRes with
  | some r => some r
  | none =>
    match findSub V.WEEKDAYS s with
    | none => none
    | some wkv =>
      let foundMonth := (findSub KANNADA_MONTHS s).map (fun kv => kv.2)
      let foundOrd := match findSub V.ORDINALS s with
        | some okv => okv.2
        | none => 1
      if pyTruthyInt foundMonth then
        match foundMonth with
        | some mv => calculate_nth_weekday year mv wkv.2 foundOrd
        | none => none
      else none

/-- `optUpd new old`: the effect of one `if p in D: field = D[p]` test on a
field — a found value overwrites, otherwise the field is kept. -/
def optUpd {α : Type} (new old : Option α) : Option α :=
  match new with
  | some w => some w
  | none => old

/-- The token loop shared by `get_lunar_date` (src/calculations.py:177-184)
and `get_gregorian_month_tithi_date`: split the cleaned text on whitespace
and test each stripped token for exact membership in three dicts; a later
matching token overwrites an earlier one. -/
def tokenScan3 (d1 : List (String × Int)) (d2 : List (String × String))
    (d3 : List (String × Int)) (parts : List (List Char)) :
    Option Int × Option String × Option Int :=
  parts.foldl
    (fun acc p =>
      let ps := String.mk (listStrip p)
      (optUpd (lookupInt d1 ps) acc.1,
       optUpd (lookupStr d2 ps) acc.2.1,
       optUpd (lookupInt d3 ps) acc.2.2))
    (none, none, none)

/-- The token loop of `get_solar_date` / `get_lunar_month_star_date` /
`get_solar_day_date`: two integer-valued dicts, tokens not stripped. -/
def tokenScan2 (d1 d2 : List (String × Int)) (parts : List (List Char)) :
    Option Int × Option Int :=
  parts.foldl
    (fun acc p =>
      let ps := String.mk p
      (optUpd (lookupInt d1 ps) acc.1,
       optUpd (lookupInt d2 ps) acc.2))
    (none, none)

/-- Cleaned token list with `"-"` and `"."` mapped to spaces
(`replace("-", " ").replace(".", " ").split()`). -/
def tokensDashDot (s : String) : List (List Char) :=
  splitWs (replCh '.' ' ' (replCh '-' ' ' s.toList))

/-- Cleaned token list with only `"-"` mapped to spaces
(`replace("-", " ").split()`). -/
def tokensDash (s : String) : List (List Char) :=
  splitWs (replCh '-' ' ' s.toList)

/-- `get_lunar_date` (src/calculations.py:175-187).  `planetsOk` models
`PLANETS is not None`; on backend failure the function returns the string
`"Error"`. -/
def get_lunar_date (V : Vocab) (E : Ephemeris) (planetsOk : Bool)
    (kannadaString : String) (year : Int) : Option String :=
  if !planetsOk then some "Error"
  else
    match tokenScan3 V.LUNAR_MONTHS V.PAKSHA V.TITHIS (tokensDashDot kannadaString) with
    | (fm, fp, ft) =>
      if pyTruthyInt fm && pyTruthyStr fp && pyTruthyInt ft then
        match fm, fp, ft with
        | some m, some p, some t =>
          some (calculate_accurate_lunar_date E m p t year "sunrise")
        | _, _, _ => none
      else none

/-- `get_solar_date` (src/calculations.py:191-200). -/
def get_solar_date (V : Vocab) (E : Ephemeris) (planetsOk : Bool)
    (kannadaString : String) (year : Int) : Option String :=
  if !planetsOk then some "Error"
  else
    match tokenScan2 V.SOLAR_MONTHS V.NAKSHATRAS (tokensDash kannadaString) with
    | (fm, fs) =>
      if pyTruthyInt fm && pyTruthyInt fs then
        match fm, fs with
        | some m, some st => some (calculate_solar_span_event E year m "star" st)
        | _, _ => none
      else none

/-- The token loop of `get_solar_month_tithi_date` (solar month, paksha,
tithi over dash-and-dot-cleaned tokens, not stripped). -/
def tokenScanSMT (V : Vocab) (parts : List (List Char)) :
    Option Int × Option String × Option Int :=
  parts.foldl
    (fun acc p =>
      let ps := String.mk p
      (optUpd (lookupInt V.SOLAR_MONTHS ps) acc.1,
       optUpd (lookupStr V.PAKSHA ps) acc.2.1,
       optUpd (lookupInt V.TITHIS ps) acc.2.2))
    (none, none, none)

/-- `get_solar_month_tithi_date` (src/calculations.py:203-216). -/
def get_solar_month_tithi_date (V : Vocab) (E : Ephemeris) (planetsOk : Bool)
    (kannadaString : String) (year : Int) : Option String :=
  if !planetsOk then some "Error"
  else
    match tokenScanSMT V (tokensDashDot kannadaString) with
    | (fm, fp, ft) =>
      if pyTruthyInt fm && pyTruthyStr fp && pyTruthyInt ft then
        match fm, fp, ft with
        | some m, some p, some t =>
          some (calculate_solar_span_event E year m "tithi" (targetTithi p t))
        | _, _, _ => none
      else none

/-- `get_lunar_month_star_date` (src/calculations.py:219-250). -/
def get_lunar_month_star_date (V : Vocab) (E : Ephemeris) (planetsOk : Bool)
    (kannadaString : String) (year : Int) : Option String :=
  if !planetsOk then some "Error"
  else
    match tokenScan2 V.LUNAR_MONTHS V.NAKSHATRAS (tokensDash kannadaString) with
    | (fm, fs) =>
      if pyTruthyInt fm && pyTruthyInt fs then
        match fm, fs with
        | some lm, some st =>
          let startMonth := gregMapGet lm
          let startDate := daysFromCivil year startMonth 1 - 20
          (lunarStarScan E year lm st 60 startDate).map strf
        | _, _ => none
      else none

/-- The token loop of `get_solar_day_date`: a single dict, tokens not
stripped. -/
def tokenScan1 (d1 : List (String × Int)) (parts : List (List Char)) : Option Int :=
  parts.foldl
    (fun acc p => optUpd (lookupInt d1 (String.mk p)) acc)
    none

/-- `get_solar_day_date` (src/calculations.py:253-284).  The day number is
the first digit run of the raw input string. -/
def get_solar_day_date (V : Vocab) (E : Ephemeris) (planetsOk : Bool)
    (kannadaString : String) (year : Int) : Option String :=
  if !planetsOk then some "Error"
  else
    let fm := tokenScan1 V.SOLAR_MONTHS (tokensDash kannadaString)
    let dayNum := (firstNum kannadaString.toList).map (fun n => (n : Int))
    if pyTruthyInt fm && pyTruthyInt dayNum then
      match fm, dayNum with
      | some m, some dn =>
        let startGreg := if m + 3 > 12 then m + 3 - 12 else m + 3
        let search := daysFromCivil year startGreg 1 - 20
        (solarDayScan E m dn 45 search).map strf
      | _, _ => none
    else none

/-- `get_gregorian_month_star_date` (src/calculations.py:374-411): civil
month from `KANNADA_MONTHS` plus star from `NAKSHATRAS`, exact token
membership over dash-cleaned tokens, then a scan of that civil month. -/
def get_gregorian_month_star_date (V : Vocab) (E : Ephemeris) (planetsOk : Bool)
    (kannadaString : String) (year : Int) : Option String :=
  if !planetsOk then some "Error"
  else
    match tokenScan2 KANNADA_MONTHS V.NAKSHATRAS (tokensDash kannadaString) with
    | (gm, fs) =>
      if pyTruthyInt gm && pyTruthyInt fs then
        match gm, fs with
        | some g, some st => gregMonthStarScan E year g st 31 1
        | _, _ => none
      else none

/-- `get_gregorian_month_tithi_date` (src/calculations.py:414-456): civil
month plus paksha plus tithi over dash-and-dot-cleaned stripped tokens,
then a scan of that civil month for the target tithi. -/
def get_gregorian_month_tithi_date (V : Vocab) (E : Ephemeris) (planetsOk : Bool)
    (kannadaString : String) (year : Int) : Option String :=
  if !planetsOk then some "Error"
  else
    match tokenScan3 KANNADA_MONTHS V.PAKSHA V.TITHIS (tokensDashDot kannadaString) with
    | (gm, fp, ft) =>
      if pyTruthyInt gm && pyTruthyStr fp && pyTruthyInt ft then
        match gm, fp, ft with
        | some g, some p, some t => gregMonthTithiScan E year g (targetTithi p t) 31 1
        | _, _, _ => none
      else none

/-! ## Festival rule resolver (src/calculations.py:325-371) -/

/-- A record of the external `festivals/festivals.json` rule table.
Fields accessed by the source: `rule["type"]`, `rule["month"]`,
`rule["paksha"]`, `rule["tithi"]`, `rule.get("time", "sunrise")`, and
(presence-tested) `rule["star"]`.  `paksha`/`tithi` are only read for
`type == "lunar"`; a well-formed table provides them there. -/
structure Rule where
  rtype : String
  month : Int
  paksha : String
  tithi : Int
  star : Option Int
  time : Option String
  deriving DecidableEq

/-- Rule-table lookup (`kannada_string in rules` / `rules[kannada_string]`). -/
def lookupRule (l : List (String × Rule)) (k : String) : Option Rule :=
  (l.find? (fun kv => kv.1 == k)).map (fun kv => kv.2)

/-- First `SOLAR_MONTHS` key with the given value:
`list(SOLAR_MONTHS.keys())[list(SOLAR_MONTHS.values()).index(month)]`.
(The source raises if the value is absent; a well-formed table always
names a real solar month, modelled here by returning no result.) -/
def solarMonthName (V : Vocab) (m : Int) : Option String :=
  (V.SOLAR_MONTHS.find? (fun kv => kv.2 == m)).map (fun kv => kv.1)

/-- `get_festival_date` (src/calculations.py:344-371): strip the query,
look it up verbatim in the rule table, and dispatch on `rule["type"]`:
`"lunar"` to the accurate lunar search, `"solar_start"` to
`get_solar_day_date` on a synthesised `"{month_name} 1"` query, `"solar"`
with a `star` field to the solar span search; any other type falls
through to `None`. -/
def get_festival_date (V : Vocab) (E : Ephemeris) (planetsOk : Bool)
    (rules : List (String × Rule)) (kannadaString : String) (year : Int) :
    Option String :=
  let key := pyStrip kannadaString
  match lookupRule rules key with
  | none => none
  | some rule =>
    if rule.rtype = "lunar" then
      some (calculate_accurate_lunar_date E rule.month rule.paksha rule.tithi year
        (rule.time.getD "sunrise"))
    else if rule.rtype = "solar_start" then
      match solarMonthName V rule.month with
      | some mName => get_solar_day_date V E planetsOk (mName ++ " 1") year
      | none => none
    else if rule.rtype = "solar" then
      match rule.star with
      | some st => some (calculate_solar_span_event E year rule.month "star" st)
      | none => none
    else none

/-! ## Strategy dispatcher and fill-down pass (src/app.py:126-218) -/

/-- Python truthiness of an optional string result (`None` and `""` are
falsy; every concrete result of the source is a nonempty string). -/
def pyTruthyRes : Option String → Bool
  | none => false
  | some s => !(s = "")

/-- The per-row strategy chain of src/app.py:152-209, with the source's
acceptance test at each stage: plain truthiness for English/Pattern,
Festival, Lunar + Star and Solar Day No.; truthiness plus
`"Not Found" not in res` for Lunar Tithi; truthiness plus
`"Check" not in res` for Solar Star and Solar + Tithi.  The festival
stage receives the original (pre-fill-down) text; all others the
processed text. -/
def dispatchRow (E : Ephemeris) (V : Vocab) (rules : List (String × Rule))
    (planetsOk : Bool) (finalText originalText : String) (year : Int) :
    String × String :=
  let r1 := get_english_date V finalText year
  if pyTruthyRes r1 then (r1.getD "", "English/Pattern")
  else
    let r2 := get_festival_date V E planetsOk rules originalText year
    if pyTruthyRes r2 then (r2.getD "", "Festival")
    else
      let r3 := get_lunar_date V E planetsOk finalText year
      if pyTruthyRes r3 && !(pyIn "Not Found" (r3.getD "")) then (r3.getD "", "Lunar Tithi")
      else
        let r4 := get_solar_date V E planetsOk finalText year
        if pyTruthyRes r4 && !(pyIn "Check" (r4.getD "")) then (r4.getD "", "Solar Star")
        else
          let r5 := get_solar_month_tithi_date V E planetsOk finalText year
          if pyTruthyRes r5 && !(pyIn "Check" (r5.getD "")) then (r5.getD "", "Solar + Tithi")
          else
            let r6 := get_lunar_month_star_date V E planetsOk finalText year
            if pyTruthyRes r6 then (r6.getD "", "Lunar + Star")
            else
              let r7 := get_solar_day_date V E planetsOk finalText year
              if pyTruthyRes r7 then (r7.getD "", "Solar Day No.")
              else ("Manual Check", "Unknown Format")

/-- A dispatch strategy: a resolver over (processed text, original text,
year), an acceptance test on its result, and a classification tag. -/
structure Strategy where
  run : String → String → Int → Option String
  accept : Option String → Bool
  tag : String

/-- First-accepted-strategy fold over an ordered strategy list; total
exhaustion yields the "Manual Check" / "Unknown Format" row. -/
def runStrategies : List Strategy → String → String → Int → String × String
  | [], _, _, _ => ("Manual Check", "Unknown Format")
  | s :: rest, ft, ot, y =>
    let r := s.run ft ot y
    if s.accept r then (r.getD "", s.tag) else runStrategies rest ft ot y

/-- The seven strategies of src/app.py:152-209 in their source order, with
the source's acceptance tests and tags. -/
def codeStrategies (E : Ephemeris) (V : Vocab) (rules : List (String × Rule))
    (planetsOk : Bool) : List Strategy :=
  [⟨fun ft _ y => get_english_date V ft y, pyTruthyRes, "English/Pattern"⟩,
   ⟨fun _ ot y => get_festival_date V E planetsOk rules ot y, pyTruthyRes, "Festival"⟩,
   ⟨fun ft _ y => get_lunar_date V E planetsOk ft y,
     fun r => pyTruthyRes r && !(pyIn "Not Found" (r.getD "")), "Lunar Tithi"⟩,
   ⟨fun ft _ y => get_solar_date V E planetsOk ft y,
     fun r => pyTruthyRes r && !(pyIn "Check" (r.getD "")), "Solar Star"⟩,
   ⟨fun ft _ y => get_solar_month_tithi_date V E planetsOk ft y,
     fun r => pyTruthyRes r && !(pyIn "Check" (r.getD "")), "Solar + Tithi"⟩,
   ⟨fun ft _ y => get_lunar_month_star_date V E planetsOk ft y, pyTruthyRes, "Lunar + Star"⟩,
   ⟨fun ft _ y => get_solar_day_date V E planetsOk ft y, pyTruthyRes, "Solar Day No."⟩]

/-- Modelled from the spec: the acceptance test of §4.7 — a strategy result
is accepted when it is a concrete date, i.e. not null and not one of the
sentinels "Not Found", "Check Manual", "Error". -/
def specAccept : Option String → Bool
  | none => false
  | some s => !(s = "") && !(s = "Not Found") && !(s = "Check Manual") && !(s = "Error")

/-- Modelled from the spec: the nine-strategy priority order of §4.7
(explicit civil date / weekday pattern, festival, lunar tithi, solar star,
solar+tithi, lunar+star, civil-month+star, civil-month+tithi, solar
day-number).  The individual resolvers are the source's; only the list
(the two civil-month hybrids, which src/app.py never calls) and the
uniform acceptance test follow the spec's words. -/
def specStrategies (E : Ephemeris) (V : Vocab) (rules : List (String × Rule))
    (planetsOk : Bool) : List Strategy :=
  [⟨fun ft _ y => get_english_date V ft y, specAccept, "English/Pattern"⟩,
   ⟨fun _ ot y => get_festival_date V E planetsOk rules ot y, specAccept, "Festival"⟩,
   ⟨fun ft _ y => get_lunar_date V E planetsOk ft y, specAccept, "Lunar Tithi"⟩,
   ⟨fun ft _ y => get_solar_date V E planetsOk ft y, specAccept, "Solar Star"⟩,
   ⟨fun ft _ y => get_solar_month_tithi_date V E planetsOk ft y, specAccept, "Solar + Tithi"⟩,
   ⟨fun ft _ y => get_lunar_month_star_date V E planetsOk ft y, specAccept, "Lunar + Star"⟩,
   ⟨fun ft _ y => get_gregorian_month_star_date V E planetsOk ft y, specAccept, "Civil + Star"⟩,
   ⟨fun ft _ y => get_gregorian_month_tithi_date V E planetsOk ft y, specAccept, "Civil + Tithi"⟩,
   ⟨fun ft _ y => get_solar_day_date V E planetsOk ft y, specAccept, "Solar Day No."⟩]

/-- The month-token loop of the fill-down pass (src/app.py:137-142):
first `KANNADA_MONTHS` key occurring as a substring of the row text. -/
def findMonthKey : List (String × Int) → String → Option String
  | [], _ => none
  | (k, _) :: rest, text => if pyIn k text then some k else findMonthKey rest text

/-- One step of the fill-down pass (src/app.py:136-150): a row whose text
contains a `KANNADA_MONTHS` key updates the accumulator to that key and
passes its text through; otherwise a bare-number row with a (truthy)
remembered month is rewritten to `"{month}-{number}"`; any other row
passes through unchanged. -/
def fillDownStep (last : Option String) (text : String) : Option String × String :=
  match findMonthKey KANNADA_MONTHS text with
  | some km => (some km, text)
  | none =>
    match last with
    | some lm =>
      if pyIsdigit text && !(lm = "") then (some lm, lm ++ "-" ++ text)
      else (some lm, text)
    | none => (none, text)

/-! ## Concrete instances for witnesses and counterexamples -/

/-- A constant ephemeris: Sun and Moon both at ecliptic longitude 0° at
every instant. -/
def constEph : Ephemeris :=
  ⟨fun _ _ _ => Frac.ofInt 0, fun _ _ _ => Frac.ofInt 0⟩

/-- An empty vocabulary instance. -/
def emptyVocab : Vocab :=
  ⟨[], [], [], [], [], [], []⟩

/-- Vocabulary for the dispatcher counterexample: only a nakshatra name is
known (index 26 is the Moon's sidereal star under `constEph`). -/
def starOnlyVocab : Vocab :=
  ⟨[], [], [], [("X", 26)], [], [], []⟩

/-- Vocabulary for the parser counterexample: the solar-month vocabulary
holds the longer token "ಮೇಷ" and the weekday vocabulary the short token
"ಷ", which occurs inside it. -/
def shortLongVocab : Vocab :=
  ⟨[], [], [], [], [("ಮೇಷ", 1)], [("ಷ", 2)], []⟩

/-- Vocabulary for the exact-token witness: one lunar month, one paksha,
one tithi name. -/
def smallLunarVocab : Vocab :=
  ⟨[("AA", 1)], [("BB", "Shukla")], [("CC", 1)], [], [], [], []⟩

/-- A `lunar_star`-typed festival rule (month 1, star 26 — both satisfied
under `constEph`). -/
def ruleLunarStar : Rule :=
  ⟨"lunar_star", 1, "", 0, some 26, none⟩

/-- A `lunar`-typed festival rule. -/
def ruleLunar : Rule :=
  ⟨"lunar", 1, "Shukla", 1, none, none⟩

/-- Rule table holding one `lunar_star` festival. -/
def rulesLS : List (String × Rule) :=
  [("ಹಬ್ಬ", ruleLunarStar)]

/-- Rule table holding one `lunar` festival. -/
def rulesL : List (String × Rule) :=
  [("ಹಬ್ಬ", ruleLunar)]

/-- Modelled from the spec: the weekday-name vocabulary `WEEKDAYS` of
`mappings.py` (a repository file not available under src/); §4.4 lists
weekday names among the parser's vocabularies and the fill-down claim
speaks of rows matching a known weekday pattern.  Only membership of
representative weekday tokens (Sunday, Monday) is needed here. -/
def SPEC_WEEKDAYS : List (String × Int) :=
  [("ಭಾನುವಾರ", 6), ("ಸೋಮವಾರ", 0)]

/-! ## Search success predicates (for stating the claims) -/

/-- A day accepted by the loop of `calculate_accurate_lunar_date`: it lies
in the requested civil year (the loop skips the others), its tithi at the
sampling instant is the target, and `get_lunar_month_from_new_moon` agrees
with the requested lunar month. -/
def lunarHit (E : Ephemeris) (tmi tt y : Int) (h m : Nat) (z : Int) : Prop :=
  yearOfOrd z = y ∧ tithiAt E h m z = tt ∧ get_lunar_month_from_new_moon E z = tmi

/-- The star/tithi condition of `calculate_solar_span_event` according to
`event_type` (any other event type never matches, so the loop runs out). -/
def eventMatches (E : Ephemeris) (et : String) (tv z : Int) : Prop :=
  if et = "star" then starAt E 1 0 z = tv
  else if et = "tithi" then tithiAt E 1 0 z = tv
  else False

/-- A day accepted by the loop of `calculate_solar_span_event`: in the
requested civil year, inside the requested sidereal solar month, and
matching the star or tithi condition. -/
def solarHit (E : Ephemeris) (y sm : Int) (et : String) (tv z : Int) : Prop :=
  yearOfOrd z = y ∧ sIdxAt E 1 0 z = sm ∧ eventMatches E et tv z

/-! ## Helper lemmas: fractions and floors -/

theorem floor_int_div (a b : Int) (hb : 0 < b) : a / b = ⌊(a : ℚ) / (b : ℚ)⌋ := by
  have h : ((b.toNat : ℕ) : ℤ) = b := Int.toNat_of_nonneg hb.le
  rw [← h]
  rw [show (((b.toNat : ℕ) : ℤ) : ℚ) = ((b.toNat : ℕ) : ℚ) by push_cast; ring]
  exact (Rat.floor_intCast_div_natCast a b.toNat).symm

theorem Frac.floorDiv_eq (x : Frac) (k : Nat) (hk : 0 < k) :
    x.floorDiv k = ⌊x.toRat / (k : ℚ)⌋ := by
  have hdk : (0 : ℤ) < x.den * k := mul_pos x.dpos (by exact_mod_cast hk)
  unfold Frac.floorDiv Frac.toRat
  rw [floor_int_div x.num (x.den * (k : ℤ)) hdk]
  congr 1
  push_cast
  rw [div_div]

theorem Frac.floorDivQ_eq (x : Frac) (p q : Nat) (hp : 0 < p) (hq : 0 < q) :
    x.floorDivQ p q = ⌊x.toRat / ((p : ℚ) / (q : ℚ))⌋ := by
  have hdp : (0 : ℤ) < x.den * p := mul_pos x.dpos (by exact_mod_cast hp)
  have hq' : ((q : ℚ)) ≠ 0 := by positivity
  have hp' : ((p : ℚ)) ≠ 0 := by positivity
  have hd' : ((x.den : ℚ)) ≠ 0 := by
    have := x.dpos
    positivity
  unfold Frac.floorDivQ Frac.toRat
  rw [floor_int_div (x.num * (q : ℤ)) (x.den * (p : ℤ)) hdp]
  congr 1
  push_cast
  field_simp

theorem Frac.sub_toRat (a b : Frac) : (a.sub b).toRat = a.toRat - b.toRat := by
  have ha : ((a.den : ℚ)) ≠ 0 := by
    have := a.dpos
    positivity
  have hb : ((b.den : ℚ)) ≠ 0 := by
    have := b.dpos
    positivity
  unfold Frac.sub Frac.toRat
  push_cast
  field_simp
  ring

theorem fmod360_toRat (x : Frac) : (fmod360 x).toRat = qmodRat x.toRat := by
  have hd : ((x.den : ℚ)) ≠ 0 := by
    have := x.dpos
    positivity
  have hfd : x.floorDiv 360 = ⌊x.toRat / (360 : ℚ)⌋ := by
    have := x.floorDiv_eq 360 (by norm_num)
    simpa using this
  unfold fmod360 Frac.toRat qmodRat
  unfold Frac.toRat at hfd
  rw [hfd]
  push_cast
  field_simp
  ring

theorem qmodRat_nonneg (t : ℚ) : 0 ≤ qmodRat t := by
  have h : (⌊t / 360⌋ : ℚ) ≤ t / 360 := Int.floor_le _
  have h' : (360 : ℚ) * (⌊t / 360⌋ : ℚ) ≤ 360 * (t / 360) := by linarith
  have ht : (360 : ℚ) * (t / 360) = t := by ring
  unfold qmodRat
  linarith

theorem qmodRat_lt (t : ℚ) : qmodRat t < 360 := by
  have h : t / 360 < (⌊t / 360⌋ : ℚ) + 1 := Int.lt_floor_add_one _
  have h' : (360 : ℚ) * (t / 360) < 360 * ((⌊t / 360⌋ : ℚ) + 1) := by linarith
  have ht : (360 : ℚ) * (t / 360) = t := by ring
  unfold qmodRat
  linarith

/-! ## Helper lemmas: first-match characterisation of the day scans -/

theorem scanFirst_spec (next : Nat → Int → Option Int) (p : Int → Prop)
    (h0 : ∀ z, next 0 z = none)
    (hpos : ∀ f z, p z → next (f + 1) z = some z)
    (hneg : ∀ f z, ¬ p z → next (f + 1) z = next f (z + 1)) :
    ∀ (fuel : Nat) (z : Int),
      (∃ i : Nat, i < fuel ∧ p (z + i) ∧ (∀ j : Nat, j < i → ¬ p (z + j)) ∧
        next fuel z = some (z + i)) ∨
      (next fuel z = none ∧ ∀ i : Nat, i < fuel → ¬ p (z + i)) := by
  intro fuel
  induction fuel with
  | zero =>
    intro z
    right
    exact ⟨h0 z, fun i hi => absurd hi (by omega)⟩
  | succ f ih =>
    intro z
    by_cases hz : p z
    · left
      refine ⟨0, by omega, by simpa using hz, fun j hj => absurd hj (by omega), ?_⟩
      simpa using hpos f z hz
    · rcases ih (z + 1) with ⟨i, hi, hp1, hmin, heq⟩ | ⟨heq, hnone⟩
      · left
        refine ⟨i + 1, by omega, ?_, ?_, ?_⟩
        · have hc : z + ((i + 1 : Nat) : Int) = z + 1 + (i : Int) := by push_cast; ring
          rw [hc]
          exact hp1
        · intro j hj
          match j with
          | 0 => simpa using hz
          | Nat.succ k =>
            have hc : z + ((k + 1 : Nat) : Int) = z + 1 + (k : Int) := by push_cast; ring
            rw [hc]
            exact hmin k (by omega)
        · rw [hneg f z hz, heq]
          congr 1
          push_cast
          ring
      · right
        refine ⟨by rw [hneg f z hz]; exact heq, ?_⟩
        intro i hi
        match i with
        | 0 => simpa using hz
        | Nat.succ k =>
          have hc : z + ((k + 1 : Nat) : Int) = z + 1 + (k : Int) := by push_cast; ring
          rw [hc]
          exact hnone k (by omega)

theorem lunarScanAux_step_pos (E : Ephemeris) (tmi tt y : Int) (h m : Nat) (f : Nat) (z : Int)
    (hp : lunarHit E tmi tt y h m z) :
    lunarScanAux E tmi tt y h m (f + 1) z = some z := by
  obtain ⟨h1, h2, h3⟩ := hp
  simp [lunarScanAux, h1, h2, h3]

theorem lunarScanAux_step_neg (E : Ephemeris) (tmi tt y : Int) (h m : Nat) (f : Nat) (z : Int)
    (hp : ¬ lunarHit E tmi tt y h m z) :
    lunarScanAux E tmi tt y h m (f + 1) z = lunarScanAux E tmi tt y h m f (z + 1) := by
  by_cases h1 : yearOfOrd z = y
  · by_cases h2 : tithiAt E h m z = tt
    · have h3 : get_lunar_month_from_new_moon E z ≠ tmi := by
        intro hc
        exact hp ⟨h1, h2, hc⟩
      simp [lunarScanAux, h1, h2, h3]
    · simp [lunarScanAux, h1, h2]
  · simp [lunarScanAux, h1]

theorem solarSpanScan_step_pos (E : Ephemeris) (y sm : Int) (et : String) (tv : Int)
    (f : Nat) (z : Int) (hp : solarHit E y sm et tv z) :
    solarSpanScan E y sm et tv (f + 1) z = some z := by
  obtain ⟨h1, h2, h3⟩ := hp
  by_cases hs : et = "star"
  · have h4 : starAt E 1 0 z = tv := by simpa [eventMatches, hs] using h3
    simp [solarSpanScan, h1, h2, hs, h4]
  · by_cases ht : et = "tithi"
    · have h4 : tithiAt E 1 0 z = tv := by simpa [eventMatches, hs, ht] using h3
      simp [solarSpanScan, h1, h2, hs, ht, h4]
    · exact absurd h3 (by simp [eventMatches, hs, ht])

theorem solarSpanScan_step_neg (E : Ephemeris) (y sm : Int) (et : String) (tv : Int)
    (f : Nat) (z : Int) (hp : ¬ solarHit E y sm et tv z) :
    solarSpanScan E y sm et tv (f + 1) z = solarSpanScan E y sm et tv f (z + 1) := by
  by_cases h1 : yearOfOrd z = y
  · by_cases h2 : sIdxAt E 1 0 z = sm
    · by_cases hs : et = "star"
      · have h4 : starAt E 1 0 z ≠ tv := by
          intro hc
          exact hp ⟨h1, h2, by simp [eventMatches, hs, hc]⟩
        simp [solarSpanScan, h1, h2, hs, h4]
      · by_cases ht : et = "tithi"
        · have h4 : tithiAt E 1 0 z ≠ tv := by
            intro hc
            exact hp ⟨h1, h2, by simp [eventMatches, hs, ht, hc]⟩
          simp [solarSpanScan, h1, h2, hs, ht, h4]
        · simp [solarSpanScan, h1, h2, hs, ht]
    · simp [solarSpanScan, h1, h2]
  · simp [solarSpanScan, h1]

theorem calculate_accurate_lunar_date_unfold (E : Ephemeris) (tmi : Int) (pk : String)
    (tv y : Int) (ct : String) :
    calculate_accurate_lunar_date E tmi pk tv y ct =
      (match lunarScanAux E tmi (targetTithi pk tv) y (lunarInstant ct).1 (lunarInstant ct).2
          80 (lunarStart y tmi) with
        | some z => strf z
        | none => "Not Found") := rfl

theorem calculate_solar_span_event_unfold (E : Ephemeris) (y sm : Int) (et : String)
    (tv : Int) :
    calculate_solar_span_event E y sm et tv =
      (match solarSpanScan E y sm et tv 50 (solarStart y sm) with
        | some z => strf z
        | none => "Check Manual") := rfl

/-! ## Helper lemmas: ranges of the astronomical indices -/

theorem tithiOf_eq_floor (mlon slon : Frac) :
    tithiOf mlon slon = ⌊qmodRat (mlon.toRat - slon.toRat) / (12 : ℚ)⌋ + 1 := by
  unfold tithiOf
  rw [Frac.floorDiv_eq _ 12 (by norm_num), fmod360_toRat, Frac.sub_toRat]
  norm_num

theorem tithiOf_range (mlon slon : Frac) :
    1 ≤ tithiOf mlon slon ∧ tithiOf mlon slon ≤ 30 := by
  rw [tithiOf_eq_floor]
  have h0 : 0 ≤ qmodRat (mlon.toRat - slon.toRat) := qmodRat_nonneg _
  have h1 : qmodRat (mlon.toRat - slon.toRat) < 360 := qmodRat_lt _
  have hf0 : 0 ≤ ⌊qmodRat (mlon.toRat - slon.toRat) / (12 : ℚ)⌋ :=
    Int.floor_nonneg.mpr (by positivity)
  have hf1 : ⌊qmodRat (mlon.toRat - slon.toRat) / (12 : ℚ)⌋ < 30 := by
    apply Int.floor_lt.mpr
    rw [div_lt_iff₀ (by norm_num : (0 : ℚ) < 12)]
    push_cast
    linarith
  omega

/-! ## Helper lemmas: formatted dates contain only digits and dashes,
so the dispatcher's substring filters can only reject sentinels -/

theorem digitCh_isDigit (d : Nat) : (digitCh d).isDigit = true := by
  have h : d % 10 < 10 := Nat.mod_lt _ (by norm_num)
  unfold digitCh
  interval_cases hd : d % 10 <;> decide

theorem natDigitsAux_chars : ∀ (f n : Nat) (c : Char), c ∈ natDigitsAux f n → c.isDigit = true := by
  intro f
  induction f with
  | zero =>
    intro n c hc
    simp only [natDigitsAux, List.mem_singleton] at hc
    rw [hc]
    exact digitCh_isDigit _
  | succ f ih =>
    intro n c hc
    simp only [natDigitsAux] at hc
    by_cases hn : n < 10
    · rw [if_pos hn] at hc
      simp only [List.mem_singleton] at hc
      rw [hc]
      exact digitCh_isDigit _
    · rw [if_neg hn] at hc
      rcases List.mem_append.mp hc with h1 | h2
      · exact ih _ _ h1
      · simp only [List.mem_singleton] at h2
        rw [h2]
        exact digitCh_isDigit _

theorem padNum_chars (w : Nat) (n : Int) (c : Char) (hc : c ∈ padNum w n) :
    c.isDigit = true ∨ c = '-' := by
  unfold padNum at hc
  rcases List.mem_append.mp hc with h1 | h2
  · left
    rw [List.eq_of_mem_replicate h1]
    decide
  · exact Or.inl (natDigitsAux_chars _ _ _ h2)

theorem strf_chars (z : Int) (c : Char) (hc : c ∈ (strf z).toList) :
    c.isDigit = true ∨ c = '-' := by
  unfold strf at hc
  simp only [String.toList] at hc
  rcases List.mem_append.mp hc with h | h
  · rcases List.mem_append.mp h with h | h
    · rcases List.mem_append.mp h with h | h
      · rcases List.mem_append.mp h with h | h
        · exact padNum_chars _ _ _ h
        · simp only [List.mem_singleton] at h
          exact Or.inr h
      · exact padNum_chars _ _ _ h
    · simp only [List.mem_singleton] at h
      exact Or.inr h
  · exact padNum_chars _ _ _ h

theorem hasPreChars_head (a : Char) (n l : List Char)
    (h : hasPreChars (a :: n) l = true) : ∃ t, l = a :: t := by
  cases l with
  | nil => exact absurd h (by simp [hasPreChars])
  | cons b t =>
    simp only [hasPreChars, Bool.and_eq_true, decide_eq_true_eq] at h
    exact ⟨t, by rw [h.1]⟩

theorem hasRunChars_mem (a : Char) (n : List Char) :
    ∀ l : List Char, hasRunChars (a :: n) l = true → a ∈ l := by
  intro l
  induction l with
  | nil => intro h; exact absurd h (by simp [hasRunChars])
  | cons c t ih =>
    intro h
    simp only [hasRunChars, Bool.or_eq_true] at h
    rcases h with h | h
    · obtain ⟨t', ht'⟩ := hasPreChars_head a n (c :: t) h
      rw [ht']
      exact List.mem_cons_self a t'
    · exact List.mem_cons_of_mem c (ih h)

/-- A formatted date never contains the sentinels' substrings, and is
nonempty, so every stage acceptance check of the dispatcher passes on a
genuine date and the substring filters only ever reject sentinels. -/
theorem strf_sentinel_free (z : Int) :
    pyIn "Not Found" (strf z) = false ∧ pyIn "Check" (strf z) = false ∧
    (strf z).toList ≠ [] := by
  refine ⟨?_, ?_, ?_⟩
  · by_contra hb
    have h : hasRunChars ('N' :: "ot Found".toList) (strf z).toList = true := by
      simpa [pyIn] using hb
    have hm := hasRunChars_mem _ _ _ h
    rcases strf_chars z 'N' hm with h1 | h1 <;> simp at h1
  · by_contra hb
    have h : hasRunChars ('C' :: "heck".toList) (strf z).toList = true := by
      simpa [pyIn] using hb
    have hm := hasRunChars_mem _ _ _ h
    rcases strf_chars z 'C' hm with h1 | h1 <;> simp at h1
  · unfold strf
    simp only [String.toList]
    intro hb
    have := List.append_eq_nil.mp hb
    exact absurd this.1 (by simp)

/-- Spec §8 Scenario A as a smoke check of the embedding: the explicit
pattern "⟨Month⟩-15" for 2026 resolves to day 15 of that civil month. -/
theorem scenarioA_explicit_date :
    get_english_date emptyVocab "ಮೇ-15" 2026 = some "15-05-2026" := by decide

/-! ## Claim theorems -/

/-- Claim C1: for every ephemeris oracle and every query
`(month, paksha, tithi, year, check_time)`, `calculate_accurate_lunar_date`
either returns the formatted first day of its 80-day anchored window that
the loop accepts — a day of the requested civil year whose computed tithi
equals the target index and whose `get_lunar_month_from_new_moon` equals
the requested lunar month, with no earlier day of the window accepted —
or, when no day of the window is accepted, returns the sentinel
`"Not Found"`; it never returns a date that fails the conditions. -/
theorem claim1_lunar_tithi_search (E : Ephemeris) (targetMonthIdx : Int) (pakshaStr : String)
    (tithiVal year : Int) (checkTime : String) :
    (∃ i : Nat, i < 80 ∧
        lunarHit E targetMonthIdx (targetTithi pakshaStr tithiVal) year
          (lunarInstant checkTime).1 (lunarInstant checkTime).2
          (lunarStart year targetMonthIdx + i) ∧
        (∀ j : Nat, j < i →
          ¬ lunarHit E targetMonthIdx (targetTithi pakshaStr tithiVal) year
            (lunarInstant checkTime).1 (lunarInstant checkTime).2
            (lunarStart year targetMonthIdx + j)) ∧
        calculate_accurate_lunar_date E targetMonthIdx pakshaStr tithiVal year checkTime =
          strf (lunarStart year targetMonthIdx + i)) ∨
    (calculate_accurate_lunar_date E targetMonthIdx pakshaStr tithiVal year checkTime =
        "Not Found" ∧
      ∀ i : Nat, i < 80 →
        ¬ lunarHit E targetMonthIdx (targetTithi pakshaStr tithiVal) year
          (lunarInstant checkTime).1 (lunarInstant checkTime).2
          (lunarStart year targetMonthIdx + i)) := by
  rcases scanFirst_spec
      (lunarScanAux E targetMonthIdx (targetTithi pakshaStr tithiVal) year
        (lunarInstant checkTime).1 (lunarInstant checkTime).2)
      (lunarHit E targetMonthIdx (targetTithi pakshaStr tithiVal) year
        (lunarInstant checkTime).1 (lunarInstant checkTime).2)
      (fun _ => rfl)
      (lunarScanAux_step_pos E targetMonthIdx (targetTithi pakshaStr tithiVal) year _ _)
      (lunarScanAux_step_neg E targetMonthIdx (targetTithi pakshaStr tithiVal) year _ _)
      80 (lunarStart year targetMonthIdx) with
    ⟨i, hi, hp, hmin, heq⟩ | ⟨heq, hn⟩
  · left
    refine ⟨i, hi, hp, hmin, ?_⟩
    rw [calculate_accurate_lunar_date_unfold, heq]
  · right
    refine ⟨?_, hn⟩
    rw [calculate_accurate_lunar_date_unfold, heq]

/-- Claim C7: `calculate_solar_span_event` is bounded: for every ephemeris
oracle and input it scans at most 50 consecutive days from its anchor,
returns the formatted first scanned day that is in the requested civil
year, inside the requested sidereal solar month and matching the star or
tithi condition, and on exhaustion returns the sentinel `"Check Manual"`,
which is distinct from `"Not Found"`. -/
theorem claim7_solar_span_bounded (E : Ephemeris) (year solarMonthIdx : Int)
    (eventType : String) (targetVal : Int) :
    ((∃ i : Nat, i < 50 ∧
        solarHit E year solarMonthIdx eventType targetVal (solarStart year solarMonthIdx + i) ∧
        (∀ j : Nat, j < i →
          ¬ solarHit E year solarMonthIdx eventType targetVal
            (solarStart year solarMonthIdx + j)) ∧
        calculate_solar_span_event E year solarMonthIdx eventType targetVal =
          strf (solarStart year solarMonthIdx + i)) ∨
      (calculate_solar_span_event E year solarMonthIdx eventType targetVal = "Check Manual" ∧
        ∀ i : Nat, i < 50 →
          ¬ solarHit E year solarMonthIdx eventType targetVal
            (solarStart year solarMonthIdx + i))) ∧
    ("Check Manual" : String) ≠ "Not Found" := by
  refine ⟨?_, by decide⟩
  rcases scanFirst_spec
      (solarSpanScan E year solarMonthIdx eventType targetVal)
      (solarHit E year solarMonthIdx eventType targetVal)
      (fun _ => rfl)
      (solarSpanScan_step_pos E year solarMonthIdx eventType targetVal)
      (solarSpanScan_step_neg E year solarMonthIdx eventType targetVal)
      50 (solarStart year solarMonthIdx) with
    ⟨i, hi, hp, hmin, heq⟩ | ⟨heq, hn⟩
  · left
    refine ⟨i, hi, hp, hmin, ?_⟩
    rw [calculate_solar_span_event_unfold, heq]
  · right
    refine ⟨?_, hn⟩
    rw [calculate_solar_span_event_unfold, heq]

/-- Claim C8: for every pair of Moon/Sun longitudes the computed tithi
equals `⌊((moonLon - sunLon) mod 360) / 12⌋ + 1` and lies in 1..30; and
the target index of a query is the waxing index plus 15 for paksha
Krishna and the unchanged index for Shukla. -/
theorem claim8_tithi_formula_range :
    (∀ mlon slon : Frac,
      tithiOf mlon slon = ⌊qmodRat (mlon.toRat - slon.toRat) / (12 : ℚ)⌋ + 1 ∧
      1 ≤ tithiOf mlon slon ∧ tithiOf mlon slon ≤ 30) ∧
    (∀ t : Int, targetTithi "Krishna" t = t + 15 ∧ targetTithi "Shukla" t = t) := by
  refine ⟨fun mlon slon => ⟨tithiOf_eq_floor mlon slon, tithiOf_range mlon slon⟩, fun t => ⟨?_, ?_⟩⟩
  · simp [targetTithi]
  · simp [targetTithi]

/-- Claim C9: for every ephemeris oracle and civil day,
`get_lunar_month_from_new_moon` computes
`zodiacIndex = ⌊sidereal sun longitude at the estimated preceding new moon / 30⌋`
and returns `(zodiacIndex + 2) mod 12` with result 0 mapped to 12, so the
returned lunar month always lies in 1..12. -/
theorem claim9_lunar_month_resolver (E : Ephemeris) (z : Int) :
    (∃ zi : Int,
      zi = ⌊qmodRat ((E.sunLon (newMoonEstimate E z) 6 0).toRat - AYANAMSA.toRat) / (30 : ℚ)⌋ ∧
      get_lunar_month_from_new_moon E z =
        (if (zi + 2) % 12 = 0 then 12 else (zi + 2) % 12)) ∧
    1 ≤ get_lunar_month_from_new_moon E z ∧ get_lunar_month_from_new_moon E z ≤ 12 := by
  have hzi : (get_sidereal_sun_longitude (E.sunLon (newMoonEstimate E z) 6 0)).floorDiv 30 =
      ⌊qmodRat ((E.sunLon (newMoonEstimate E z) 6 0).toRat - AYANAMSA.toRat) / (30 : ℚ)⌋ := by
    unfold get_sidereal_sun_longitude
    rw [Frac.floorDiv_eq _ 30 (by norm_num), fmod360_toRat, Frac.sub_toRat]
    norm_num
  constructor
  · exact ⟨(get_sidereal_sun_longitude (E.sunLon (newMoonEstimate E z) 6 0)).floorDiv 30,
      hzi, rfl⟩
  · set zi := (get_sidereal_sun_longitude (E.sunLon (newMoonEstimate E z) 6 0)).floorDiv 30 with hz
    have h0 : 0 ≤ (zi + 2) % 12 := Int.emod_nonneg _ (by norm_num)
    have h1 : (zi + 2) % 12 < 12 := Int.emod_lt_of_pos _ (by norm_num)
    have hval : get_lunar_month_from_new_moon E z =
        (if (zi + 2) % 12 = 0 then 12 else (zi + 2) % 12) := rfl
    rw [hval]
    by_cases hc : (zi + 2) % 12 = 0
    · simp [hc]
    · simp only [hc, if_false]
      omega

/-- Claim C10: every concrete date returned by
`calculate_accurate_lunar_date` or `calculate_solar_span_event` has its
civil year equal to the requested year argument — each function either
returns its sentinel or the formatted form of a day whose `yearOfOrd` is
the requested year, because days of an adjacent civil year in the padded
window are skipped. -/
theorem claim10_year_invariant (E : Ephemeris) (targetMonthIdx tithiVal year solarMonthIdx
    targetVal : Int) (pakshaStr checkTime eventType : String) :
    (calculate_accurate_lunar_date E targetMonthIdx pakshaStr tithiVal year checkTime =
        "Not Found" ∨
      ∃ z : Int, yearOfOrd z = year ∧
        calculate_accurate_lunar_date E targetMonthIdx pakshaStr tithiVal year checkTime =
          strf z) ∧
    (calculate_solar_span_event E year solarMonthIdx eventType targetVal = "Check Manual" ∨
      ∃ z : Int, yearOfOrd z = year ∧
        calculate_solar_span_event E year solarMonthIdx eventType targetVal = strf z) := by
  constructor
  · rcases scanFirst_spec
        (lunarScanAux E targetMonthIdx (targetTithi pakshaStr tithiVal) year
          (lunarInstant checkTime).1 (lunarInstant checkTime).2)
        (lunarHit E targetMonthIdx (targetTithi pakshaStr tithiVal) year
          (lunarInstant checkTime).1 (lunarInstant checkTime).2)
        (fun _ => rfl)
        (lunarScanAux_step_pos E targetMonthIdx (targetTithi pakshaStr tithiVal) year _ _)
        (lunarScanAux_step_neg E targetMonthIdx (targetTithi pakshaStr tithiVal) year _ _)
        80 (lunarStart year targetMonthIdx) with
      ⟨i, _, hp, _, heq⟩ | ⟨heq, _⟩
    · right
      exact ⟨lunarStart year targetMonthIdx + i, hp.1,
        by rw [calculate_accurate_lunar_date_unfold, heq]⟩
    · left
      rw [calculate_accurate_lunar_date_unfold, heq]
  · rcases scanFirst_spec
        (solarSpanScan E year solarMonthIdx eventType targetVal)
        (solarHit E year solarMonthIdx eventType targetVal)
        (fun _ => rfl)
        (solarSpanScan_step_pos E year solarMonthIdx eventType targetVal)
        (solarSpanScan_step_neg E year solarMonthIdx eventType targetVal)
        50 (solarStart year solarMonthIdx) with
      ⟨i, _, hp, _, heq⟩ | ⟨heq, _⟩
    · right
      exact ⟨solarStart year solarMonthIdx + i, hp.1,
        by rw [calculate_solar_span_event_unfold, heq]⟩
    · left
      rw [calculate_solar_span_event_unfold, heq]

/-! ## Claims C2-C6: dispatcher, parser, fill-down, sentinels, festivals -/

/-- Claim C2 (amended): the dispatcher of src/app.py attempts exactly seven
strategies, in the fixed order English/Pattern → Festival → Lunar Tithi →
Solar Star → Solar + Tithi → Lunar + Star → Solar Day No., accepting the
first whose result passes that stage's acceptance check (truthiness,
plus a `"Not Found"` substring filter at the lunar stage and a `"Check"`
substring filter at the two solar stages), tagging the row with that
strategy's label, and tagging total exhaustion "Manual Check" / "Unknown
Format"; the civil-month+star and civil-month+tithi resolvers are never
attempted. -/
theorem claim2_seven_strategy_order (E : Ephemeris) (V : Vocab)
    (rules : List (String × Rule)) (planetsOk : Bool) (finalText originalText : String)
    (year : Int) :
    dispatchRow E V rules planetsOk finalText originalText year =
      runStrategies (codeStrategies E V rules planetsOk) finalText originalText year := rfl

/-- Claim C2 counterexample: on a row naming a civil month and a nakshatra,
every strategy the code attempts fails and the row is tagged
"Manual Check" / "Unknown Format", although the civil-month+star resolver
(claimed to be attempted before the solar day-number strategy) returns a
concrete date, and the nine-strategy dispatcher modelled from the spec
would return that date. -/
theorem claim2_civil_star_never_attempted :
    dispatchRow constEph starOnlyVocab [] true "ಮಾರ್ಚ್ X" "ಮಾರ್ಚ್ X" 2025 =
      ("Manual Check", "Unknown Format") ∧
    get_gregorian_month_star_date starOnlyVocab constEph true "ಮಾರ್ಚ್ X" 2025 =
      some "01-03-2025" ∧
    runStrategies (specStrategies constEph starOnlyVocab [] true) "ಮಾರ್ಚ್ X" "ಮಾರ್ಚ್ X" 2025 =
      ("01-03-2025", "Civil + Star") := by
  refine ⟨?_, ?_, ?_⟩ <;> decide

/-- Claim C5 (code bug): with the ephemeris backend failed, the sentinel
string `"Error"` returned by `get_lunar_date` passes the Lunar Tithi
stage's acceptance check (`res and "Not Found" not in res`) and becomes
the row's resolved date, contradicting the policy that a sentinel always
advances the dispatcher to the next strategy; the English/Pattern
strategy, by contrast, is correctly unaffected by the ephemeris failure. -/
theorem claim5_error_sentinel_accepted :
    dispatchRow constEph emptyVocab [] false "xyz" "xyz" 2025 = ("Error", "Lunar Tithi") ∧
    dispatchRow constEph emptyVocab [] false "ಮಾರ್ಚ್-15" "ಮಾರ್ಚ್-15" 2025 =
      ("15-03-2025", "English/Pattern") := by
  refine ⟨?_, ?_⟩ <;> decide

theorem foldl_opt_upd_some {α : Type} (f : List Char → Option α) :
    ∀ (l : List (List Char)) (a0 : Option α) (v : α),
      l.foldl (fun a p => optUpd (f p) a) a0 = some v →
      a0 = some v ∨ ∃ p ∈ l, f p = some v := by
  intro l
  induction l with
  | nil =>
    intro a0 v h
    left
    simpa using h
  | cons p rest ih =>
    intro a0 v h
    simp only [List.foldl_cons] at h
    rcases ih _ v h with h1 | ⟨q, hq, hfq⟩
    · cases hf : f p with
      | none =>
        rw [hf] at h1
        left
        exact h1
      | some w =>
        rw [hf] at h1
        right
        refine ⟨p, List.mem_cons_self p rest, ?_⟩
        rw [hf]
        simpa [optUpd] using h1
    · right
      exact ⟨q, List.mem_cons_of_mem p hq, hfq⟩

theorem tokenScan3_fst (d1 : List (String × Int)) (d2 : List (String × String))
    (d3 : List (String × Int)) :
    ∀ (parts : List (List Char)) (acc : Option Int × Option String × Option Int),
      (parts.foldl
        (fun acc p =>
          let ps := String.mk (listStrip p)
          (optUpd (lookupInt d1 ps) acc.1,
           optUpd (lookupStr d2 ps) acc.2.1,
           optUpd (lookupInt d3 ps) acc.2.2)) acc).1 =
      parts.foldl
        (fun a p => optUpd (lookupInt d1 (String.mk (listStrip p))) a) acc.1 := by
  intro parts
  induction parts with
  | nil => intro acc; rfl
  | cons p rest ih =>
    intro acc
    simp only [List.foldl_cons]
    rw [ih]

theorem tokenScan3_paksha (d1 : List (String × Int)) (d2 : List (String × String))
    (d3 : List (String × Int)) :
    ∀ (parts : List (List Char)) (acc : Option Int × Option String × Option Int),
      (parts.foldl
        (fun acc p =>
          let ps := String.mk (listStrip p)
          (optUpd (lookupInt d1 ps) acc.1,
           optUpd (lookupStr d2 ps) acc.2.1,
           optUpd (lookupInt d3 ps) acc.2.2)) acc).2.1 =
      parts.foldl
        (fun a p => optUpd (lookupStr d2 (String.mk (listStrip p))) a) acc.2.1 := by
  intro parts
  induction parts with
  | nil => intro acc; rfl
  | cons p rest ih =>
    intro acc
    simp only [List.foldl_cons]
    rw [ih]

theorem tokenScan3_tithi (d1 : List (String × Int)) (d2 : List (String × String))
    (d3 : List (String × Int)) :
    ∀ (parts : List (List Char)) (acc : Option Int × Option String × Option Int),
      (parts.foldl
        (fun acc p =>
          let ps := String.mk (listStrip p)
          (optUpd (lookupInt d1 ps) acc.1,
           optUpd (lookupStr d2 ps) acc.2.1,
           optUpd (lookupInt d3 ps) acc.2.2)) acc).2.2 =
      parts.foldl
        (fun a p => optUpd (lookupInt d3 (String.mk (listStrip p))) a) acc.2.2 := by
  intro parts
  induction parts with
  | nil => intro acc; rfl
  | cons p rest ih =>
    intro acc
    simp only [List.foldl_cons]
    rw [ih]

/-- Claim C3 (amended): the token scan of `get_lunar_date` splits the
cleaned text on whitespace and registers a category only when a whole
(stripped) token is exactly a key of that category's vocabulary — so a
short key occurring only inside a longer token is never registered there;
but tokens are not consumed: the same token is tested against all three
vocabularies (see the counterexample for the substring-matching
`get_english_date` side). -/
theorem claim3_exact_token_match (V : Vocab) (s : String) :
    (∀ v : Int,
      (tokenScan3 V.LUNAR_MONTHS V.PAKSHA V.TITHIS (tokensDashDot s)).1 = some v →
      ∃ p ∈ tokensDashDot s, lookupInt V.LUNAR_MONTHS (String.mk (listStrip p)) = some v) ∧
    (∀ v : String,
      (tokenScan3 V.LUNAR_MONTHS V.PAKSHA V.TITHIS (tokensDashDot s)).2.1 = some v →
      ∃ p ∈ tokensDashDot s, lookupStr V.PAKSHA (String.mk (listStrip p)) = some v) ∧
    (∀ v : Int,
      (tokenScan3 V.LUNAR_MONTHS V.PAKSHA V.TITHIS (tokensDashDot s)).2.2 = some v →
      ∃ p ∈ tokensDashDot s, lookupInt V.TITHIS (String.mk (listStrip p)) = some v) := by
  refine ⟨?_, ?_, ?_⟩
  · intro v h
    unfold tokenScan3 at h
    rw [tokenScan3_fst] at h
    have h' : List.foldl
        (fun a p => optUpd (lookupInt V.LUNAR_MONTHS (String.mk (listStrip p))) a)
        none (tokensDashDot s) = some v := h
    rcases foldl_opt_upd_some (fun p => lookupInt V.LUNAR_MONTHS (String.mk (listStrip p)))
        (tokensDashDot s) none v h' with h1 | h2
    · exact absurd h1 (by simp)
    · exact h2
  · intro v h
    unfold tokenScan3 at h
    rw [tokenScan3_paksha] at h
    have h' : List.foldl
        (fun a p => optUpd (lookupStr V.PAKSHA (String.mk (listStrip p))) a)
        none (tokensDashDot s) = some v := h
    rcases foldl_opt_upd_some (fun p => lookupStr V.PAKSHA (String.mk (listStrip p)))
        (tokensDashDot s) none v h' with h1 | h2
    · exact absurd h1 (by simp)
    · exact h2
  · intro v h
    unfold tokenScan3 at h
    rw [tokenScan3_tithi] at h
    have h' : List.foldl
        (fun a p => optUpd (lookupInt V.TITHIS (String.mk (listStrip p))) a)
        none (tokensDashDot s) = some v := h
    rcases foldl_opt_upd_some (fun p => lookupInt V.TITHIS (String.mk (listStrip p)))
        (tokensDashDot s) none v h' with h1 | h2
    · exact absurd h1 (by simp)
    · exact h2

/-- Claim C3 counterexample: in `get_english_date`, vocabularies are
scanned by substring containment in dictionary order with no
longest-match ordering and no removal: the short weekday key "ಷ" occurs
in the text only inside the unrelated longer solar-month token "ಮೇಷ"
(it is not a standalone token), yet the weekday category is registered
and the parser resolves the row through the weekday-pattern branch. -/
theorem claim3_substring_match_bug :
    ("ಮೇಷ", 1) ∈ shortLongVocab.SOLAR_MONTHS ∧
    ("ಷ", 2) ∈ shortLongVocab.WEEKDAYS ∧
    pyIn "ಷ" "ಮಾರ್ಚ್ ಮೇಷ" = true ∧
    (∀ p ∈ tokensDash "ಮಾರ್ಚ್ ಮೇಷ", ¬ String.mk p = "ಷ") ∧
    get_english_date shortLongVocab "ಮಾರ್ಚ್ ಮೇಷ" 2025 = some "05-03-2025" := by
  refine ⟨?_, ?_, ?_, ?_, ?_⟩ <;> decide

/-- Witness for C3: a concrete instantiation of the exact-token lemma. -/
theorem claim3_witness :
    (tokenScan3 smallLunarVocab.LUNAR_MONTHS smallLunarVocab.PAKSHA smallLunarVocab.TITHIS
        (tokensDashDot "AA")).1 = some 1 ∧
    ∃ p ∈ tokensDashDot "AA",
      lookupInt smallLunarVocab.LUNAR_MONTHS (String.mk (listStrip p)) = some 1 :=
  ⟨by decide, (claim3_exact_token_match smallLunarVocab "AA").1 1 (by decide)⟩

/-- Claim C4 (amended): the fill-down step rewrites only bare-number rows:
with no month token in the text and a remembered month `m`, a digit-only
row becomes `"{m}-{number}"` and every other row passes through unchanged;
a row containing a month token updates the accumulator to the first such
key and passes through unchanged. -/
theorem claim4_fill_down :
    (∀ (m text : String), findMonthKey KANNADA_MONTHS text = none → ¬ m = "" →
      fillDownStep (some m) text =
        (some m, if pyIsdigit text then m ++ "-" ++ text else text)) ∧
    (∀ (last : Option String) (text km : String),
      findMonthKey KANNADA_MONTHS text = some km →
      fillDownStep last text = (some km, text)) ∧
    (∀ text : String, findMonthKey KANNADA_MONTHS text = none →
      fillDownStep none text = (none, text)) := by
  refine ⟨?_, ?_, ?_⟩
  · intro m text hn hm
    unfold fillDownStep
    rw [hn]
    by_cases hd : pyIsdigit text
    · simp [hd, hm]
    · simp [hd]
  · intro last text km hk
    unfold fillDownStep
    rw [hk]
  · intro text hn
    unfold fillDownStep
    rw [hn]

/-- Claim C4 counterexample: a row matching a known weekday pattern (a
token of the spec-modelled weekday vocabulary), with no month token and a
remembered month, passes through the fill-down step unchanged — the
remembered month is not prepended. -/
theorem claim4_weekday_not_rewritten :
    ("ಸೋಮವಾರ", 0) ∈ SPEC_WEEKDAYS ∧
    fillDownStep (some "ಮಾರ್ಚ್") "ಸೋಮವಾರ" = (some "ಮಾರ್ಚ್", "ಸೋಮವಾರ") ∧
    hasPreChars "ಮಾರ್ಚ್".toList "ಸೋಮವಾರ".toList = false := by
  refine ⟨?_, ?_, ?_⟩ <;> decide

/-- Witness for C4: Scenario C — month row then bare-number row. -/
theorem claim4_witness :
    (findMonthKey KANNADA_MONTHS "15" = none ∧ ¬ ("ಮೇ" : String) = "") ∧
    fillDownStep (some "ಮೇ") "15" =
      (some "ಮೇ", if pyIsdigit "15" then "ಮೇ" ++ "-" ++ "15" else "15") :=
  ⟨⟨by decide, by decide⟩, claim4_fill_down.1 "ಮೇ" "15" (by decide) (by decide)⟩

/-- Claim C6 (amended): `get_festival_date` strips only surrounding
whitespace (no numeric-suffix stripping other text cleaning) and looks the
name up verbatim; a found rule dispatches by type: `lunar` to
`calculate_accurate_lunar_date` with the rule's month/paksha/tithi and the
optional time (default "sunrise"); `solar_start` to `get_solar_day_date`
on the synthesised query `"{solar month name} 1"`; `solar` with a `star`
field to `calculate_solar_span_event` in star mode; every other type —
including `lunar_star` and `lunar_weekday` — yields null. -/
theorem claim6_festival_dispatch (V : Vocab) (E : Ephemeris) (planetsOk : Bool)
    (rules : List (String × Rule)) (s : String) (y : Int) (rule : Rule)
    (hl : lookupRule rules (pyStrip s) = some rule) :
    (rule.rtype = "lunar" →
      get_festival_date V E planetsOk rules s y =
        some (calculate_accurate_lunar_date E rule.month rule.paksha rule.tithi y
          (rule.time.getD "sunrise"))) ∧
    (rule.rtype = "lunar_star" → get_festival_date V E planetsOk rules s y = none) ∧
    (rule.rtype = "lunar_weekday" → get_festival_date V E planetsOk rules s y = none) ∧
    (∀ st : Int, rule.rtype = "solar" → rule.star = some st →
      get_festival_date V E planetsOk rules s y =
        some (calculate_solar_span_event E y rule.month "star" st)) ∧
    (∀ mName : String, rule.rtype = "solar_start" → solarMonthName V rule.month = some mName →
      get_festival_date V E planetsOk rules s y =
        get_solar_day_date V E planetsOk (mName ++ " 1") y) := by
  have hbody : get_festival_date V E planetsOk rules s y =
      (if rule.rtype = "lunar" then
        some (calculate_accurate_lunar_date E rule.month rule.paksha rule.tithi y
          (rule.time.getD "sunrise"))
      else if rule.rtype = "solar_start" then
        match solarMonthName V rule.month with
        | some mName => get_solar_day_date V E planetsOk (mName ++ " 1") y
        | none => none
      else if rule.rtype = "solar" then
        match rule.star with
        | some st => some (calculate_solar_span_event E y rule.month "star" st)
        | none => none
      else none) := by
    unfold get_festival_date
    dsimp only
    rw [hl]
  rw [hbody]
  refine ⟨?_, ?_, ?_, ?_, ?_⟩
  · intro ht
    rw [ht]
    simp
  · intro ht
    rw [ht]
    simp
  · intro ht
    rw [ht]
    simp
  · intro st ht hst
    rw [ht, hst]
    simp
  · intro mName ht hm
    rw [ht, hm]
    simp

/-- Claim C6 counterexample: a festival name with a trailing numeric
suffix misses the rule table (no suffix stripping), and a well-formed
`lunar_star` rule yields null although the lunar-month+star search it is
claimed to dispatch to finds a concrete day. -/
theorem claim6_lunar_star_unhandled :
    get_festival_date starOnlyVocab constEph true rulesL "ಹಬ್ಬ 2" 2025 = none ∧
    get_festival_date starOnlyVocab constEph true rulesLS "ಹಬ್ಬ" 2025 = none ∧
    lunarStarScan constEph 2025 1 26 60 (daysFromCivil 2025 3 1 - 20) =
      some (daysFromCivil 2025 2 9) := by
  refine ⟨?_, ?_, ?_⟩ <;> decide

/-- Witness for C6: a concrete `lunar` rule dispatches to the lunar search. -/
theorem claim6_witness :
    lookupRule rulesL (pyStrip "ಹಬ್ಬ") = some ruleLunar ∧
    get_festival_date starOnlyVocab constEph true rulesL "ಹಬ್ಬ" 2025 =
      some (calculate_accurate_lunar_date constEph ruleLunar.month ruleLunar.paksha
        ruleLunar.tithi 2025 (ruleLunar.time.getD "sunrise")) :=
  ⟨by decide,
    (claim6_festival_dispatch starOnlyVocab constEph true rulesL "ಹಬ್ಬ" 2025 ruleLunar
      (by decide)).1 (by decide)⟩

end PoojaSpec
